import Mathlib

/-!
Verification development for the messaging-assistant repository.

The repository combines a Notion-backed knowledge cache, a dual-provider
answer router with round-robin key rotation, a per-user session store and a
metrics ring buffer.  Module-level mutable state (cache slots, the round-robin
index, the session maps, the ring buffer) is modelled by explicit state
passing; every external call (Notion API, generation providers, the config and
session databases) is modelled by an oracle argument giving the outcome of
that call, with a thrown exception represented as an `Except.error` value.
-/

set_option maxRecDepth 100000

namespace Assistant

/-! ### Embedding of src/src/lib/ai.ts (Answer Router) -/

/-- The `provider` field of `AiResponse` in src/src/lib/ai.ts line 26:
the TypeScript union type has exactly the two values `Gemini` and `Groq`. -/
inductive Provider where
  | Gemini
  | Groq
  deriving DecidableEq, Repr

/-- The result envelope `AiResponse` of src/src/lib/ai.ts lines 23-27. -/
structure AiResponse where
  text : String
  modelUsed : String
  provider : Provider
  deriving DecidableEq, Repr

/-- Environment configuration read at the top of src/src/lib/ai.ts:
`GOOGLE_API_KEYS`, `GEMINI_MODEL_NAME`, `SCHOOL_NAME`, `GROQ_API_KEY`,
`GROQ_MODEL_NAME`. -/
structure AiConfig where
  googleApiKeys : List String
  geminiModelName : String
  schoolName : String
  groqApiKey : String
  groqModelName : String

/-- Outcome oracle for one Gemini generation attempt: given the API key, the
system prompt and the query, the generated text or the thrown error message. -/
abbrev GenOracle := String → String → String → Except String String

/-- The system prompt template literal built at the start of `generateAnswer`
(src/src/lib/ai.ts lines 36-55), with `SCHOOL_NAME` and the context spliced in. -/
def systemPromptOf (schoolName context : String) : String :=
  "\n你是" ++ schoolName
    ++ "的 AI 小助手，專門回答學生與家長的問題。\n你的知識來源是以下 Notion 頁面內容：\n\n<NotionContext>\n"
    ++ context
    ++ "\n</NotionContext>\n\n回覆格式規則（非常重要）：\n- 因為你的回覆會顯示在 LINE 聊天室，請【絕對不要】使用任何 Markdown 語法\n- 禁止使用：** ** (粗體)、# (標題)、* 或 - (條列符號)、_ _ (斜體)\n- 改用 emoji 來區分段落，例如：📌 📋 🗓️ ✅ ➡️\n- 條列項目改用「・」或數字「1.」來表示\n- 段落之間空一行\n\n回答原則：\n1. 優先根據 Notion 資料回答，資料中沒有的才用一般知識補充\n2. 言簡意賅，不要過長\n3. 全程使用繁體中文\n"

/-- The `while (attempts < GOOGLE_API_KEYS.length)` loop of `generateAnswer`
(src/src/lib/ai.ts lines 62-95).  The first `Nat` argument is the number of
remaining attempts, the second is the module-global `currentGeminiKeyIndex`.
Returns the successful response (if any), the final value of the global index
(on success the index is not advanced further) and the list of key indices
attempted, in order. -/
def tryGeminiKeys (cfg : AiConfig) (gem : GenOracle) (systemPrompt query : String) :
    Nat → Nat → Option AiResponse × Nat × List Nat
  | 0, idx => (none, idx, [])
  | Nat.succ n, idx =>
    match gem (cfg.googleApiKeys.getD idx "") systemPrompt query with
    | Except.ok text =>
      (some ⟨text, cfg.geminiModelName ++ " (Key " ++ toString (idx + 1) ++ ")",
        Provider.Gemini⟩, idx, [idx])
    | Except.error _ =>
      let r := tryGeminiKeys cfg gem systemPrompt query n
        ((idx + 1) % cfg.googleApiKeys.length)
      (r.1, r.2.1, idx :: r.2.2)

/-- The Groq fallback call of src/src/lib/ai.ts lines 101-119, including the
`if (!GROQ_API_KEY) throw` guard, whose exception is caught by the same catch
clause as a failed network call. -/
def groqAttempt (cfg : AiConfig) (groqGen : String → String → Except String String)
    (systemPrompt query : String) : Except String String :=
  if cfg.groqApiKey = "" then Except.error "GROQ_API_KEY is missing"
  else groqGen systemPrompt query

/-- The terminal-failure text of src/src/lib/ai.ts line 133: a fixed apology,
the fixed primary diagnostic and the Groq error message. -/
def failureText (groqMsg : String) : String :=
  "抱歉，系統目前忙碌中 (AI Service Unavailable)。\n\n[Primary Error]: All Gemini keys failed\n\n[Fallback Error]: "
    ++ groqMsg

/-- The `generateAnswer` function of src/src/lib/ai.ts lines 35-138.  The
`idx` argument is the module-global `currentGeminiKeyIndex` at entry; the
returned `Nat` is its value after the call, and the returned `List Nat` is the
sequence of primary-key indices attempted. -/
def generateAnswer (cfg : AiConfig) (gem : GenOracle)
    (groqGen : String → String → Except String String) (idx : Nat)
    (query context : String) : AiResponse × Nat × List Nat :=
  let systemPrompt := systemPromptOf cfg.schoolName context
  let primary :=
    if cfg.googleApiKeys.length = 0 then (none, idx, [])
    else tryGeminiKeys cfg gem systemPrompt query cfg.googleApiKeys.length idx
  match primary.1 with
  | some r => (r, primary.2.1, primary.2.2)
  | none =>
    match groqAttempt cfg groqGen systemPrompt query with
    | Except.ok text => (⟨text, cfg.groqModelName, Provider.Groq⟩, primary.2.1, primary.2.2)
    | Except.error msg =>
      (⟨failureText msg, "none", Provider.Gemini⟩, primary.2.1, primary.2.2)

/-- Modelled from the spec: the `providerUsed` field of the spec data model
`AnswerResult` (enum primary, secondary, none).  The spec equates a result
produced by the Gemini branch with `providerUsed = primary` and a result
produced by the Groq branch with `providerUsed = secondary`; the code result
envelope carries this information in its `provider` field, whose type has no
third value, so no `AiResponse` can map to `none` under the correspondence. -/
inductive SpecProviderUsed where
  | primary
  | secondary
  | none
  deriving DecidableEq, Repr

/-- Modelled from the spec: the field correspondence between the code result
envelope (`provider`) and the spec result envelope (`providerUsed`). -/
def providerUsedOf (r : AiResponse) : SpecProviderUsed :=
  match r.provider with
  | Provider.Gemini => SpecProviderUsed.primary
  | Provider.Groq => SpecProviderUsed.secondary

/-- If every key fails, the key-rotation loop produces no response. -/
theorem tryGeminiKeys_all_fail (cfg : AiConfig) (gem : GenOracle) (sp q : String)
    (h : ∀ k, ∃ e, gem k sp q = Except.error e) :
    ∀ fuel idx, (tryGeminiKeys cfg gem sp q fuel idx).1 = none := by
  intro fuel
  induction fuel with
  | zero => intro idx; rfl
  | succ n ih =>
    intro idx
    obtain ⟨e, he⟩ := h (cfg.googleApiKeys.getD idx "")
    simp only [tryGeminiKeys, he, ih]

example :
    (generateAnswer ⟨[], "m", "s", "k", "gm"⟩ (fun _ _ _ => Except.error "g")
      (fun _ _ => Except.error "boom") 0 "q" "c").1.modelUsed = "none" := by rfl

/-- C1 counterexample: with an empty primary-credential list and a failing
secondary credential, `generateAnswer` does return a terminal result (whose
`modelUsed` string is "none" and whose text embeds the diagnostic), but the
field the spec calls `providerUsed` is `primary`, not `none`: the result
envelope type carries only `Gemini` or `Groq` in its `provider` field, and the
terminal branch of src/src/lib/ai.ts line 135 deliberately stores `Gemini`. -/
theorem generateAnswer_claim_providerNone_false :
    providerUsedOf (generateAnswer ⟨[], "gemini-1.5-flash", "導師室", "k", "gemma2-9b-it"⟩
        (fun _ _ _ => Except.error "gerr") (fun _ _ => Except.error "boom") 0 "q" "ctx").1
      = SpecProviderUsed.primary
    ∧ providerUsedOf (generateAnswer ⟨[], "gemini-1.5-flash", "導師室", "k", "gemma2-9b-it"⟩
        (fun _ _ _ => Except.error "gerr") (fun _ _ => Except.error "boom") 0 "q" "ctx").1
      ≠ SpecProviderUsed.none
    ∧ (generateAnswer ⟨[], "gemini-1.5-flash", "導師室", "k", "gemma2-9b-it"⟩
        (fun _ _ _ => Except.error "gerr") (fun _ _ => Except.error "boom") 0 "q" "ctx").1.modelUsed
      = "none" := by
  refine ⟨rfl, by decide, rfl⟩

/-- C1 (amended): the Answer Router never raises to its caller (the embedding
is a total function returning an `AiResponse` for every input); whenever every
primary credential fails (in particular when the list is empty) and the
secondary attempt also fails, it returns the terminal result whose `modelUsed`
field is the string "none" (the `provider` field stays `Gemini` as a type
placeholder) and whose text embeds the fixed primary diagnostic together with
the secondary failure message. -/
theorem generateAnswer_total_failure (cfg : AiConfig) (gem : GenOracle)
    (groqGen : String → String → Except String String) (idx : Nat)
    (query context msg : String)
    (hgem : ∀ k, ∃ e, gem k (systemPromptOf cfg.schoolName context) query = Except.error e)
    (hgroq : groqAttempt cfg groqGen (systemPromptOf cfg.schoolName context) query
      = Except.error msg) :
    (generateAnswer cfg gem groqGen idx query context).1
      = ⟨failureText msg, "none", Provider.Gemini⟩ := by
  unfold generateAnswer
  by_cases hlen : cfg.googleApiKeys.length = 0
  · simp [hlen, hgroq]
  · simp [hlen, tryGeminiKeys_all_fail cfg gem _ query hgem cfg.googleApiKeys.length idx, hgroq]

/-- Witness for the amended C1 theorem at a concrete total-failure input. -/
theorem generateAnswer_total_failure_witness :
    (generateAnswer ⟨["k1"], "m", "s", "k", "gm"⟩ (fun _ _ _ => Except.error "gerr")
        (fun _ _ => Except.error "boom") 0 "q" "ctx").1
      = ⟨failureText "boom", "none", Provider.Gemini⟩ :=
  generateAnswer_total_failure ⟨["k1"], "m", "s", "k", "gm"⟩ _ _ 0 "q" "ctx" "boom"
    (fun _ => ⟨"gerr", rfl⟩) rfl

/-- For any oracle, the first attempted key index of a call entering the
rotation loop is the entry value of the module-global index. -/
theorem tryGeminiKeys_trace_head (cfg : AiConfig) (gem : GenOracle) (sp q : String)
    (n idx : Nat) :
    (tryGeminiKeys cfg gem sp q (Nat.succ n) idx).2.2.head? = some idx := by
  cases hg : gem (cfg.googleApiKeys.getD idx "") sp q <;>
    simp only [tryGeminiKeys, hg, List.head?]

/-- The attempt trace of `generateAnswer` is the trace of the rotation loop. -/
theorem generateAnswer_trace (cfg : AiConfig) (gem : GenOracle)
    (groqGen : String → String → Except String String) (idx : Nat) (query context : String)
    (hne : cfg.googleApiKeys.length ≠ 0) :
    (generateAnswer cfg gem groqGen idx query context).2.2
      = (tryGeminiKeys cfg gem (systemPromptOf cfg.schoolName context) query
          cfg.googleApiKeys.length idx).2.2 := by
  unfold generateAnswer
  simp only [if_neg hne]
  cases hp : (tryGeminiKeys cfg gem (systemPromptOf cfg.schoolName context) query
      cfg.googleApiKeys.length idx).1 with
  | some r => simp [hp]
  | none =>
    cases hq : groqAttempt cfg groqGen (systemPromptOf cfg.schoolName context) query <;>
      simp [hp, hq]

/-- C2: with 3 primary credentials where, starting from round-robin index 0,
the first two attempts fail and the third succeeds, `generateAnswer` returns
the primary-provider result after the attempt trace [0, 1, 2] (exactly three
attempts), leaves the module-global index at 2, and the next call (with any
oracles) begins its first attempt at index 2, not at 0. -/
theorem generateAnswer_roundRobin (cfg : AiConfig) (k0 k1 k2 : String)
    (hkeys : cfg.googleApiKeys = [k0, k1, k2])
    (gem : GenOracle) (groqGen : String → String → Except String String)
    (query context t : String)
    (h0 : ∃ e, gem k0 (systemPromptOf cfg.schoolName context) query = Except.error e)
    (h1 : ∃ e, gem k1 (systemPromptOf cfg.schoolName context) query = Except.error e)
    (h2 : gem k2 (systemPromptOf cfg.schoolName context) query = Except.ok t)
    (gem2 : GenOracle) (groqGen2 : String → String → Except String String)
    (query2 context2 : String) :
    (generateAnswer cfg gem groqGen 0 query context).1
      = ⟨t, cfg.geminiModelName ++ " (Key 3)", Provider.Gemini⟩
    ∧ (generateAnswer cfg gem groqGen 0 query context).2.2 = [0, 1, 2]
    ∧ (generateAnswer cfg gem groqGen 0 query context).2.1 = 2
    ∧ (generateAnswer cfg gem2 groqGen2
        (generateAnswer cfg gem groqGen 0 query context).2.1 query2 context2).2.2.head?
      = some 2 := by
  obtain ⟨e0, h0⟩ := h0
  obtain ⟨e1, h1⟩ := h1
  have hlen : cfg.googleApiKeys.length = 3 := by rw [hkeys]; rfl
  have hg0 : cfg.googleApiKeys.getD 0 "" = k0 := by rw [hkeys]; rfl
  have hg1 : cfg.googleApiKeys.getD 1 "" = k1 := by rw [hkeys]; rfl
  have hg2 : cfg.googleApiKeys.getD 2 "" = k2 := by rw [hkeys]; rfl
  have hkey3 : cfg.geminiModelName ++ " (Key " ++ toString (3 : Nat) ++ ")"
      = cfg.geminiModelName ++ " (Key 3)" := by
    rw [String.append_assoc, String.append_assoc]
    exact congrArg (cfg.geminiModelName ++ ·) (by decide)
  have hrun : tryGeminiKeys cfg gem (systemPromptOf cfg.schoolName context) query 3 0
      = (some ⟨t, cfg.geminiModelName ++ " (Key 3)", Provider.Gemini⟩, 2, [0, 1, 2]) := by
    rw [← hkey3]
    simp only [tryGeminiKeys, hg0, h0, hlen, hg1, h1, hg2, h2]
  have hne : cfg.googleApiKeys.length ≠ 0 := by rw [hlen]; decide
  have hfirst : (generateAnswer cfg gem groqGen 0 query context)
      = (⟨t, cfg.geminiModelName ++ " (Key 3)", Provider.Gemini⟩, 2, [0, 1, 2]) := by
    unfold generateAnswer
    simp [hne, hlen, hrun]
  refine ⟨by rw [hfirst], by rw [hfirst], by rw [hfirst], ?_⟩
  rw [hfirst]
  rw [generateAnswer_trace cfg gem2 groqGen2 2 query2 context2 hne, hlen]
  exact tryGeminiKeys_trace_head cfg gem2 _ query2 2 2

/-- Witness for the C2 theorem at a concrete three-credential input. -/
theorem generateAnswer_roundRobin_witness :
    (generateAnswer ⟨["a", "b", "c"], "m", "s", "g", "gm"⟩
        (fun k _ _ => if k = "c" then Except.ok "ans" else Except.error "e")
        (fun _ _ => Except.error "ge") 0 "q" "ctx").1
      = ⟨"ans", "m" ++ " (Key 3)", Provider.Gemini⟩
    ∧ (generateAnswer ⟨["a", "b", "c"], "m", "s", "g", "gm"⟩
        (fun k _ _ => if k = "c" then Except.ok "ans" else Except.error "e")
        (fun _ _ => Except.error "ge") 0 "q" "ctx").2.2 = [0, 1, 2]
    ∧ (generateAnswer ⟨["a", "b", "c"], "m", "s", "g", "gm"⟩
        (fun k _ _ => if k = "c" then Except.ok "ans" else Except.error "e")
        (fun _ _ => Except.error "ge") 0 "q" "ctx").2.1 = 2
    ∧ (generateAnswer ⟨["a", "b", "c"], "m", "s", "g", "gm"⟩
        (fun k _ _ => if k = "c" then Except.ok "ans" else Except.error "e")
        (fun _ _ => Except.error "ge")
        (generateAnswer ⟨["a", "b", "c"], "m", "s", "g", "gm"⟩
          (fun k _ _ => if k = "c" then Except.ok "ans" else Except.error "e")
          (fun _ _ => Except.error "ge") 0 "q" "ctx").2.1 "q2" "ctx2").2.2.head?
      = some 2 :=
  generateAnswer_roundRobin ⟨["a", "b", "c"], "m", "s", "g", "gm"⟩ "a" "b" "c" rfl
    (fun k _ _ => if k = "c" then Except.ok "ans" else Except.error "e")
    (fun _ _ => Except.error "ge") "q" "ctx" "ans"
    ⟨"e", rfl⟩ ⟨"e", rfl⟩ rfl
    (fun k _ _ => if k = "c" then Except.ok "ans" else Except.error "e")
    (fun _ _ => Except.error "ge") "q2" "ctx2"

/-! ### Embedding of src/unnamed/part_000 (Knowledge Fetcher and staleness-aware cache) -/

/-- The `NotionContext` interface of src/unnamed/part_000 lines 12-19.  The
`title` field is optional in the interface but always set by `fetchNotionPage`;
it is modelled as a plain string.  `notionLastEdited` is the optional
last-edited ISO timestamp used by the staleness check. -/
structure NotionContext where
  pageId : String
  content : String
  title : String
  lastUpdated : Nat
  notionLastEdited : Option String
  deriving DecidableEq, Repr

/-- The snapshot returned by `_fetchNotionData` (src/unnamed/part_000
lines 109-131): combined context text, the page list and the fetch time. -/
structure NotionData where
  combinedContext : String
  pages : List NotionContext
  fetchedAt : Nat
  deriving DecidableEq, Repr

/-- The `NotionDataCacheEntry` of src/unnamed/part_000 lines 57-66.  The
stored `notionLastEditedAt` is an `Option` because the JavaScript expression
computing it yields `undefined` when no fetched page carries a non-empty
last-edited time. -/
structure NotionDataCacheEntry where
  data : NotionData
  expiresAt : Nat
  notionLastEditedAt : Option String
  deriving DecidableEq, Repr

/-- `NOTION_DATA_TTL_MS` of src/unnamed/part_000 line 68 (1 hour). -/
def NOTION_DATA_TTL_MS : Nat := 60 * 60 * 1000

/-- The page object returned by `notion.pages.retrieve`, abstracted to the two
pieces `fetchNotionPage` reads from it: the extracted title and the
`last_edited_time` string (possibly empty, standing for a falsy value). -/
structure PageApiResult where
  title : String
  lastEditedTime : String
  deriving DecidableEq, Repr

/-- `fetchNotionPage` of src/unnamed/part_000 lines 74-104: two awaited calls
(the metadata retrieval and the block-to-markdown conversion), a thrown error
from either being caught and turned into `null`; on success the page context
records the page id, markdown content, title, fetch time and the last-edited
time (defaulted to the current ISO time when falsy). -/
def fetchNotionPage (pageId : String) (retrievePage : Except Unit PageApiResult)
    (pageToMarkdown : Except Unit String) (now : Nat) (nowIso : String) :
    Option NotionContext :=
  match retrievePage with
  | Except.error _ => none
  | Except.ok page =>
    match pageToMarkdown with
    | Except.error _ => none
    | Except.ok md =>
      some ⟨pageId, md, page.title, now,
        some (if page.lastEditedTime = "" then nowIso else page.lastEditedTime)⟩

/-- One segment of the combined context, from src/unnamed/part_000 line 126. -/
def pageSegment (p : NotionContext) : String :=
  "--- Page: " ++ p.title ++ " ---\n" ++ p.content

/-- The generation-timestamp footer of src/unnamed/part_000 line 127. -/
def footerOf (nowIso : String) : String :=
  "\n\n[System Info] Data Fetched At: " ++ nowIso

/-- `_fetchNotionData` of src/unnamed/part_000 lines 109-131, with the
per-page fetch outcome supplied by the `fetchPage` oracle.  Failed pages
(`none`) are filtered out; the rest are joined in page-id order. -/
def _fetchNotionData (pageIds : List String) (fetchPage : String → Option NotionContext)
    (now : Nat) (nowIso : String) : NotionData :=
  if pageIds.length = 0 then
    ⟨"No Notion pages configured.", [], now⟩
  else
    let pages := (pageIds.map fetchPage).filterMap id
    ⟨String.intercalate "\n\n" (pages.map pageSegment) ++ footerOf nowIso, pages, now⟩

/-- The join of the concurrent per-page fetches issued by `Promise.all`
(src/unnamed/part_000 line 122-123), made explicit: the fetches settle in an
arbitrary completion order, each writing its value into the result slot of its
own index; `Promise.all` resolves with the slot array. -/
def settleAll (vals : List (Option NotionContext)) (order : List Nat) :
    List (Option NotionContext) :=
  order.foldl (fun acc i => acc.set i (vals.getD i none)) (List.replicate vals.length none)

/-- `_fetchNotionData` with the fan-out made explicit: identical to
`_fetchNotionData` except that the settled results are assembled from the
completion order `order`. -/
def _fetchNotionDataSched (pageIds : List String)
    (fetchPage : String → Option NotionContext) (order : List Nat)
    (now : Nat) (nowIso : String) : NotionData :=
  if pageIds.length = 0 then
    ⟨"No Notion pages configured.", [], now⟩
  else
    let pages := (settleAll (pageIds.map fetchPage) order).filterMap id
    ⟨String.intercalate "\n\n" (pages.map pageSegment) ++ footerOf nowIso, pages, now⟩

/-- Lexicographic comparison of character lists, the order JavaScript uses for
its `<` and `>` operators on strings (code-unit order; on the ASCII ISO-8601
timestamps compared in this module it coincides with codepoint order). -/
def charListLt : List Char → List Char → Bool
  | [], [] => false
  | [], _ :: _ => true
  | _ :: _, [] => false
  | a :: as, b :: bs =>
    if a < b then true else if b < a then false else charListLt as bs

/-- JavaScript string comparison `a < b`. -/
def jsStrLt (a b : String) : Bool := charListLt a.data b.data

/-- The JavaScript idiom `.sort().reverse()[0]` on a string array: the largest
element in JavaScript string order, or undefined on an empty array. -/
def jsMaxStr (l : List String) : Option String :=
  l.foldl (fun acc s =>
    match acc with
    | none => some s
    | some m => some (if jsStrLt m s then s else m)) none

/-- The JavaScript guard `latestEdit && latestEdit > cached.notionLastEditedAt`
of src/unnamed/part_000 line 172, for a present (truthy) `latestEdit`: a string
comparison against the stored value, false when the stored value is undefined. -/
def newerThanStored (latestEdit : String) (stored : Option String) : Bool :=
  match stored with
  | some s => jsStrLt s latestEdit
  | none => false

/-- The computation of the freshest page edit time stored into the cache entry
(src/unnamed/part_000 lines 188-194): with at least one page, the maximum of
the non-empty `notionLastEdited` strings (undefined when none remain),
otherwise the current ISO time. -/
def latestEditOfPages (pages : List NotionContext) (nowIso : String) : Option String :=
  if 0 < pages.length then
    jsMaxStr ((pages.map (fun p => p.notionLastEdited.getD "")).filter (fun s => s != ""))
  else some nowIso

/-- `getCachedNotionData` of src/unnamed/part_000 lines 165-203, with the
metadata staleness probe (`getNotionPagesLastEdited`, lines 137-153, `none`
standing for both a failed probe and the no-pages case) and the content fetch
(`_fetchNotionData`) supplied as oracles.  Returns the snapshot, the cache
slot after the call and the number of content fetches performed (0 or 1). -/
def getCachedNotionData (now : Nat) (lastEditedCheck : Option String)
    (fetchResult : NotionData) (nowIso : String) (cache : Option NotionDataCacheEntry) :
    NotionData × Option NotionDataCacheEntry × Nat :=
  let hit : Option NotionData :=
    match cache with
    | some c =>
      if now < c.expiresAt then
        match lastEditedCheck with
        | some latestEdit =>
          if newerThanStored latestEdit c.notionLastEditedAt then none else some c.data
        | none => some c.data
      else none
    | none => none
  match hit with
  | some d => (d, cache, 0)
  | none =>
    (fetchResult,
      some ⟨fetchResult, now + NOTION_DATA_TTL_MS, latestEditOfPages fetchResult.pages nowIso⟩,
      1)

/-- The JavaScript string order is irreflexive. -/
theorem charListLt_irrefl : ∀ l : List Char, charListLt l l = false := by
  intro l
  induction l with
  | nil => rfl
  | cons a as ih => simp [charListLt, ih]

/-- C3: for a filled, unexpired cache slot, if the metadata staleness probe
fails (returns absent) or reports a last-edited time not newer than the stored
one, `getCachedNotionData` returns the cached snapshot unchanged, performs no
content refetch (fetch count 0) and leaves the cache slot untouched. -/
theorem getCachedNotionData_failOpen (now : Nat) (c : NotionDataCacheEntry)
    (lastEditedCheck : Option String) (fetchResult : NotionData) (nowIso : String)
    (httl : now < c.expiresAt)
    (hnotNewer : lastEditedCheck = none ∨
      ∃ le, lastEditedCheck = some le ∧ newerThanStored le c.notionLastEditedAt = false) :
    getCachedNotionData now lastEditedCheck fetchResult nowIso (some c)
      = (c.data, some c, 0) := by
  rcases hnotNewer with h | ⟨le, hle, hfalse⟩
  · simp [getCachedNotionData, httl, h]
  · simp [getCachedNotionData, httl, hle, hfalse]

/-- Witness for C3 at a concrete filled cache state with a failing probe. -/
theorem getCachedNotionData_failOpen_witness :
    getCachedNotionData 10 none ⟨"f", [], 10⟩ "iso"
        (some ⟨⟨"cached", [], 0⟩, 100, some "2024"⟩)
      = (⟨"cached", [], 0⟩, some ⟨⟨"cached", [], 0⟩, 100, some "2024"⟩, 0) :=
  getCachedNotionData_failOpen 10 ⟨⟨"cached", [], 0⟩, 100, some "2024"⟩ none
    ⟨"f", [], 10⟩ "iso" (by decide) (Or.inl rfl)

/-- C4: for a filled, unexpired cache slot, if the probe reports a last-edited
time strictly newer than the stored one, `getCachedNotionData` invalidates the
slot, performs exactly one content refetch before returning, returns the
freshly fetched snapshot and stores it in the new cache entry. -/
theorem getCachedNotionData_refetch_on_newer (now : Nat) (c : NotionDataCacheEntry)
    (le : String) (fetchResult : NotionData) (nowIso : String)
    (httl : now < c.expiresAt)
    (hnewer : newerThanStored le c.notionLastEditedAt = true) :
    getCachedNotionData now (some le) fetchResult nowIso (some c)
      = (fetchResult,
          some ⟨fetchResult, now + NOTION_DATA_TTL_MS,
            latestEditOfPages fetchResult.pages nowIso⟩,
          1) := by
  simp [getCachedNotionData, httl, hnewer]

/-- Witness for C4 at a concrete filled cache state with a newer remote edit. -/
theorem getCachedNotionData_refetch_on_newer_witness :
    getCachedNotionData 10 (some "2025") ⟨"fresh", [], 10⟩ "iso"
        (some ⟨⟨"cached", [], 0⟩, 100, some "2024"⟩)
      = (⟨"fresh", [], 10⟩,
          some ⟨⟨"fresh", [], 10⟩, 10 + NOTION_DATA_TTL_MS,
            latestEditOfPages [] "iso"⟩,
          1) :=
  getCachedNotionData_refetch_on_newer 10 ⟨⟨"cached", [], 0⟩, 100, some "2024"⟩
    "2025" ⟨"fresh", [], 10⟩ "iso" (by decide) (by decide)

/-- C5: two consecutive `getCachedNotionData` calls, the first filling an
empty slot, the second within the TTL and with the probe reporting exactly the
stored last-edited value (no remote modification), return the identical
snapshot (same combined text and documents) and perform exactly one underlying
content fetch in total (1 on the first call, 0 on the second). -/
theorem getCachedNotionData_second_hit (now1 now2 : Nat) (le1 : Option String)
    (fetch1 fetch2 : NotionData) (iso1 iso2 : String)
    (hwithin : now2 < now1 + NOTION_DATA_TTL_MS) :
    (getCachedNotionData now1 le1 fetch1 iso1 none).1 = fetch1
    ∧ (getCachedNotionData now1 le1 fetch1 iso1 none).2.2 = 1
    ∧ (getCachedNotionData now2 (latestEditOfPages fetch1.pages iso1) fetch2 iso2
        (getCachedNotionData now1 le1 fetch1 iso1 none).2.1).1
      = (getCachedNotionData now1 le1 fetch1 iso1 none).1
    ∧ (getCachedNotionData now2 (latestEditOfPages fetch1.pages iso1) fetch2 iso2
        (getCachedNotionData now1 le1 fetch1 iso1 none).2.1).2.2
      = 0 := by
  have hfirst : getCachedNotionData now1 le1 fetch1 iso1 none
      = (fetch1,
          some ⟨fetch1, now1 + NOTION_DATA_TTL_MS, latestEditOfPages fetch1.pages iso1⟩,
          1) := by
    cases le1 <;> simp [getCachedNotionData]
  have hnotNewer : latestEditOfPages fetch1.pages iso1 = none ∨
      ∃ le, latestEditOfPages fetch1.pages iso1 = some le ∧
        newerThanStored le (latestEditOfPages fetch1.pages iso1) = false := by
    cases hle : latestEditOfPages fetch1.pages iso1 with
    | none => exact Or.inl rfl
    | some s =>
      refine Or.inr ⟨s, rfl, ?_⟩
      simp [newerThanStored, jsStrLt, charListLt_irrefl]
  have hsecond := getCachedNotionData_failOpen now2
    ⟨fetch1, now1 + NOTION_DATA_TTL_MS, latestEditOfPages fetch1.pages iso1⟩
    (latestEditOfPages fetch1.pages iso1) fetch2 iso2 hwithin hnotNewer
  rw [hfirst]
  exact ⟨rfl, rfl, by rw [hsecond], by rw [hsecond]⟩

/-- Witness for C5 at concrete times and snapshots. -/
theorem getCachedNotionData_second_hit_witness :
    (getCachedNotionData 0 none ⟨"snap", [], 0⟩ "iso1" none).1 = ⟨"snap", [], 0⟩
    ∧ (getCachedNotionData 0 none ⟨"snap", [], 0⟩ "iso1" none).2.2 = 1
    ∧ (getCachedNotionData 5 (latestEditOfPages (NotionData.pages ⟨"snap", [], 0⟩) "iso1")
        ⟨"other", [], 5⟩ "iso2" (getCachedNotionData 0 none ⟨"snap", [], 0⟩ "iso1" none).2.1).1
      = (getCachedNotionData 0 none ⟨"snap", [], 0⟩ "iso1" none).1
    ∧ (getCachedNotionData 5 (latestEditOfPages (NotionData.pages ⟨"snap", [], 0⟩) "iso1")
        ⟨"other", [], 5⟩ "iso2" (getCachedNotionData 0 none ⟨"snap", [], 0⟩ "iso1" none).2.1).2.2
      = 0 :=
  getCachedNotionData_second_hit 0 5 none ⟨"snap", [], 0⟩ ⟨"other", [], 5⟩ "iso1" "iso2"
    (by decide)

/-- The fold of slot writes preserves the slot-array length. -/
theorem settle_foldl_length (vals : List (Option NotionContext)) :
    ∀ (order : List Nat) (init : List (Option NotionContext)),
      (order.foldl (fun acc i => acc.set i (vals.getD i none)) init).length = init.length := by
  intro order
  induction order with
  | nil => intro init; rfl
  | cons i rest ih => intro init; rw [List.foldl_cons, ih, List.length_set]

/-- A slot of the settled array holds the value of its own fetch exactly when
its index appears in the completion order and is in range. -/
theorem settle_foldl_getElem? (vals : List (Option NotionContext)) :
    ∀ (order : List Nat) (init : List (Option NotionContext)) (j : Nat),
      (order.foldl (fun acc i => acc.set i (vals.getD i none)) init)[j]?
        = if j ∈ order ∧ j < init.length then some (vals.getD j none) else init[j]? := by
  intro order
  induction order with
  | nil =>
    intro init j
    simp
  | cons i rest ih =>
    intro init j
    rw [List.foldl_cons, ih, List.length_set]
    by_cases hrest : j ∈ rest ∧ j < init.length
    · rw [if_pos hrest, if_pos ⟨List.mem_cons_of_mem i hrest.1, hrest.2⟩]
    · rw [if_neg hrest]
      by_cases hji : j = i
      · subst hji
        by_cases hlt : j < init.length
        · rw [List.getElem?_set_eq_of_lt _ hlt, if_pos ⟨List.mem_cons_self j rest, hlt⟩]
        · have hge : init.length ≤ j := Nat.le_of_not_lt hlt
          rw [List.getElem?_eq_none (by rw [List.length_set]; exact hge),
            if_neg (fun hc => hlt hc.2), List.getElem?_eq_none hge]
      · rw [List.getElem?_set_ne (fun h => hji h.symm)]
        refine (if_neg (fun hc => ?_)).symm ▸ rfl
        rcases List.mem_cons.mp hc.1 with h | h
        · exact hji h
        · exact hrest ⟨h, hc.2⟩

/-- Whatever completion order the concurrent fetches settle in, as long as
every fetch completes exactly the settled array equals the in-order result
array. -/
theorem settleAll_of_perm (vals : List (Option NotionContext)) (order : List Nat)
    (h : order.Perm (List.range vals.length)) : settleAll vals order = vals := by
  apply List.ext_getElem?
  intro j
  rw [settleAll, settle_foldl_getElem? vals order (List.replicate vals.length none) j,
    List.length_replicate]
  have hmem : j ∈ order ↔ j < vals.length := by
    rw [h.mem_iff, List.mem_range]
  by_cases hj : j < vals.length
  · rw [if_pos ⟨hmem.mpr hj, hj⟩, List.getElem?_eq_getElem hj,
      List.getD_eq_getElem vals none hj]
  · rw [if_neg (fun hc => hj hc.2), List.getElem?_replicate, if_neg hj, eq_comm,
      List.getElem?_eq_none (Nat.le_of_not_lt hj)]

/-- Successful pages keep the configured id order after the failure filter. -/
theorem filterMap_map_pageId (pageIds : List String)
    (fetchPage : String → Option NotionContext)
    (hid : ∀ s p, fetchPage s = some p → p.pageId = s) :
    ((pageIds.map fetchPage).filterMap id).map NotionContext.pageId
      = pageIds.filter (fun s => (fetchPage s).isSome) := by
  induction pageIds with
  | nil => rfl
  | cons a t ih =>
    cases hf : fetchPage a with
    | none => simpa [hf] using ih
    | some p =>
      simp only [List.filterMap_map, Function.id_comp] at ih
      simp [hf, ih, hid a p hf]

/-- C6: for every configured document-id list and every completion order of
the concurrent per-document fetches, the settled snapshot equals the
sequential in-order snapshot, and the sequence of documents in it follows the
configured document-id order (restricted to the successful fetches) — hence so
does the segment order of the combined text. -/
theorem fetchAll_order_independent (pageIds : List String)
    (fetchPage : String → Option NotionContext) (order : List Nat)
    (now : Nat) (nowIso : String)
    (horder : order.Perm (List.range pageIds.length))
    (hid : ∀ s p, fetchPage s = some p → p.pageId = s) :
    _fetchNotionDataSched pageIds fetchPage order now nowIso
      = _fetchNotionData pageIds fetchPage now nowIso
    ∧ (_fetchNotionDataSched pageIds fetchPage order now nowIso).pages.map
        NotionContext.pageId
      = pageIds.filter (fun s => (fetchPage s).isSome) := by
  have hperm : order.Perm (List.range (pageIds.map fetchPage).length) := by
    rwa [List.length_map]
  have heq : _fetchNotionDataSched pageIds fetchPage order now nowIso
      = _fetchNotionData pageIds fetchPage now nowIso := by
    unfold _fetchNotionDataSched _fetchNotionData
    rw [settleAll_of_perm _ _ hperm]
  refine ⟨heq, ?_⟩
  rw [heq]
  unfold _fetchNotionData
  by_cases h0 : pageIds.length = 0
  · simp [h0, List.length_eq_zero.mp h0]
  · rw [if_neg h0]
    exact filterMap_map_pageId pageIds fetchPage hid

/-- Witness for C6: two configured pages settling in reversed order. -/
theorem fetchAll_order_independent_witness :
    _fetchNotionDataSched ["a", "b"] (fun s => some ⟨s, "c", "t", 0, none⟩) [1, 0] 0 "iso"
      = _fetchNotionData ["a", "b"] (fun s => some ⟨s, "c", "t", 0, none⟩) 0 "iso"
    ∧ (_fetchNotionDataSched ["a", "b"] (fun s => some ⟨s, "c", "t", 0, none⟩)
        [1, 0] 0 "iso").pages.map NotionContext.pageId
      = ["a", "b"].filter (fun s => (some (⟨s, "c", "t", 0, none⟩ : NotionContext)).isSome) :=
  fetchAll_order_independent ["a", "b"] (fun s => some ⟨s, "c", "t", 0, none⟩) [1, 0] 0 "iso"
    (by decide) (fun s p h => by cases h; rfl)

/-- C7: a fetch over configured documents [A, B] where the underlying
retrieval for A throws still succeeds: A is excluded (its thrown error became
`null` inside `fetchNotionPage`), the snapshot contains only the B document,
and the combined context begins with the title block of B. -/
theorem fetchAll_partial_failure (a b : String) (f : String → Option NotionContext)
    (mdA : Except Unit String) (pageB : PageApiResult) (mdB : String)
    (now : Nat) (nowIso : String)
    (hA : f a = fetchNotionPage a (Except.error ()) mdA now nowIso)
    (hB : f b = fetchNotionPage b (Except.ok pageB) (Except.ok mdB) now nowIso) :
    (_fetchNotionData [a, b] f now nowIso).pages
      = [⟨b, mdB, pageB.title, now,
          some (if pageB.lastEditedTime = "" then nowIso else pageB.lastEditedTime)⟩]
    ∧ ∃ rest, (_fetchNotionData [a, b] f now nowIso).combinedContext
        = "--- Page: " ++ pageB.title ++ " ---\n" ++ rest := by
  have hA2 : f a = none := by rw [hA]; rfl
  have hB2 : f b = some ⟨b, mdB, pageB.title, now,
      some (if pageB.lastEditedTime = "" then nowIso else pageB.lastEditedTime)⟩ := by
    rw [hB]; rfl
  constructor
  · simp [_fetchNotionData, hA2, hB2]
  · refine ⟨mdB ++ footerOf nowIso, ?_⟩
    have hc : (_fetchNotionData [a, b] f now nowIso).combinedContext
        = pageSegment ⟨b, mdB, pageB.title, now,
            some (if pageB.lastEditedTime = "" then nowIso else pageB.lastEditedTime)⟩
          ++ footerOf nowIso := by
      have hint : ∀ x : String, String.intercalate "\n\n" [x] = x := fun _ => rfl
      simp [_fetchNotionData, hA2, hB2, hint]
    rw [hc]
    simp only [pageSegment]
    simp [String.append_assoc]

/-- Witness for C7: page A throws during retrieval, page B succeeds. -/
theorem fetchAll_partial_failure_witness :
    (_fetchNotionData ["A", "B"]
        (fun s => if s = "A"
          then fetchNotionPage s (Except.error ()) (Except.ok "mdA") 0 "iso"
          else fetchNotionPage s (Except.ok ⟨"TB", "2024"⟩) (Except.ok "mdB") 0 "iso")
        0 "iso").pages
      = [⟨"B", "mdB", "TB", 0, some (if ("2024" : String) = "" then "iso" else "2024")⟩]
    ∧ ∃ rest, (_fetchNotionData ["A", "B"]
        (fun s => if s = "A"
          then fetchNotionPage s (Except.error ()) (Except.ok "mdA") 0 "iso"
          else fetchNotionPage s (Except.ok ⟨"TB", "2024"⟩) (Except.ok "mdB") 0 "iso")
        0 "iso").combinedContext
        = "--- Page: " ++ "TB" ++ " ---\n" ++ rest :=
  fetchAll_partial_failure "A" "B"
    (fun s => if s = "A"
      then fetchNotionPage s (Except.error ()) (Except.ok "mdA") 0 "iso"
      else fetchNotionPage s (Except.ok ⟨"TB", "2024"⟩) (Except.ok "mdB") 0 "iso")
    (Except.ok "mdA") ⟨"TB", "2024"⟩ "mdB" 0 "iso" rfl rfl

/-! ### Embedding of the Session Store (src/src/lib/notion.ts lines 257-394) -/

/-- The `mode` field of `ChatSession` (src/src/lib/notion.ts line 261). -/
inductive SessionMode where
  | AI
  | Human
  deriving DecidableEq, Repr

/-- `ChatSession` of src/src/lib/notion.ts lines 259-264. -/
structure ChatSession where
  lineUserId : String
  mode : SessionMode
  lastActive : String
  pageId : Option String
  deriving DecidableEq, Repr

/-- The generic in-memory cache entry `MemCacheEntry` of src/src/lib/notion.ts
lines 39-42. -/
structure MemCacheEntry (T : Type) where
  data : T
  expiresAt : Nat
  deriving DecidableEq, Repr

/-- `SESSION_TTL_MS` of src/src/lib/notion.ts line 50 (2 minutes). -/
def SESSION_TTL_MS : Nat := 2 * 60 * 1000

/-- The parsed first result row of the session-database query in
`getChatSession` (src/src/lib/notion.ts lines 298-306): the mode select, the
last-active date and the record page id. -/
structure SessionRow where
  mode : SessionMode
  lastActive : String
  pageId : String
  deriving DecidableEq, Repr

/-- The module-level mutable state touched by the session store: the
`sessionCache` map (line 49) and the `localSessionStore` fallback map
(line 267), both modelled as functions from the user id. -/
structure SessState where
  sessionCache : String → Option (MemCacheEntry (Option ChatSession))
  localSessionStore : String → Option ChatSession

/-- Pointwise update of a string-keyed map. -/
def setKey {α : Type} (m : String → α) (k : String) (v : α) : String → α :=
  fun u => if u = k then v else m u

/-- `getChatSession` of src/src/lib/notion.ts lines 272-319.  The database
query for the user (filtering by `LineUserID`) is supplied as an oracle:
`Except.error` for a thrown query, `Except.ok none` for an empty result list
and `Except.ok (some row)` for a found record.  Returns the session (or
`none`) and the session state after the call. -/
def getChatSession (now : Nat) (sessionDbId : String)
    (query : Except Unit (Option SessionRow)) (st : SessState) (lineUserId : String) :
    Option ChatSession × SessState :=
  let missPath : Option ChatSession × SessState :=
    if sessionDbId = "" then (st.localSessionStore lineUserId, st)
    else
      match query with
      | Except.error _ => (st.localSessionStore lineUserId, st)
      | Except.ok Option.none =>
        let entry := setKey st.sessionCache lineUserId (some ⟨none, now + SESSION_TTL_MS⟩)
        (none, { st with sessionCache := entry })
      | Except.ok (Option.some row) =>
        let session : ChatSession := ⟨lineUserId, row.mode, row.lastActive, some row.pageId⟩
        let entry := setKey st.sessionCache lineUserId (some ⟨some session, now + SESSION_TTL_MS⟩)
        (some session, { st with sessionCache := entry })
  match st.sessionCache lineUserId with
  | some cached => if now < cached.expiresAt then (cached.data, st) else missPath
  | none => missPath

/-- `updateChatSession` of src/src/lib/notion.ts lines 357-394.  The inner
`getChatSession` call shares the `query` oracle; `updatePage` and `createPage`
are the outcomes of `notion.pages.update` and `notion.pages.create`.  Returns
the state after the call and whether the write landed in the remote store
(`true`) or in the in-process fallback map (`false`). -/
def updateChatSession (now : Nat) (nowIso : String) (sessionDbId : String)
    (query : Except Unit (Option SessionRow))
    (updatePage : Except Unit Unit) (createPage : Except Unit Unit)
    (st : SessState) (lineUserId : String) (mode : SessionMode) : SessState × Bool :=
  let localWrite : SessState → SessState := fun s =>
    let store := setKey s.localSessionStore lineUserId (some ⟨lineUserId, mode, nowIso, none⟩)
    { s with localSessionStore := store }
  if sessionDbId = "" then (localWrite st, false)
  else
    let r := getChatSession now sessionDbId query st lineUserId
    let st1 := r.2
    let remote : Except Unit Unit :=
      match r.1 with
      | some s =>
        match s.pageId with
        | some _ => updatePage
        | none => createPage
      | none => createPage
    match remote with
    | Except.ok _ => ({ st1 with sessionCache := setKey st1.sessionCache lineUserId none }, true)
    | Except.error _ => (localWrite st1, false)

/-- C8 counterexample: with a configured session database, a cached session
for u1 in mode AI and a failing remote update, `updateChatSession` lands the
write in the fallback map (mode Human) but does not invalidate the cache
entry, so the next `getChatSession` within the cache TTL still observes mode
AI, not the newly written mode. -/
theorem updateChatSession_fallback_stale_cache :
    (updateChatSession 0 "t1" "db" (Except.ok none) (Except.error ()) (Except.error ())
        ⟨fun u => if u = "u1" then some ⟨some ⟨"u1", SessionMode.AI, "t0", some "p1"⟩, 1000⟩
          else none, fun _ => none⟩
        "u1" SessionMode.Human).1.localSessionStore "u1"
      = some ⟨"u1", SessionMode.Human, "t1", none⟩
    ∧ ((getChatSession 500 "db" (Except.ok none)
        (updateChatSession 0 "t1" "db" (Except.ok none) (Except.error ()) (Except.error ())
          ⟨fun u => if u = "u1" then some ⟨some ⟨"u1", SessionMode.AI, "t0", some "p1"⟩, 1000⟩
            else none, fun _ => none⟩
          "u1" SessionMode.Human).1 "u1").1.map ChatSession.mode)
      = some SessionMode.AI
    ∧ SessionMode.AI ≠ SessionMode.Human := by
  refine ⟨rfl, rfl, by decide⟩

/-- C8 (amended): the per-user session-cache entry is invalidated exactly when
the write lands in the remote store; a write that falls back to the in-process
map leaves the cache entry untouched.  With no remote store configured the
cache is never populated on the read path, so the scenario still holds: for
any state whose cache has no entry for the user, `setMode` followed by `get`
returns the newly written mode from the in-process fallback map. -/
theorem updateChatSession_invalidate_amended :
    (∀ (now : Nat) (nowIso : String) (q : Except Unit (Option SessionRow))
        (upd crt : Except Unit Unit) (st : SessState) (u : String) (m : SessionMode)
        (now2 : Nat) (q2 : Except Unit (Option SessionRow)),
      st.sessionCache u = none →
      (getChatSession now2 "" q2 (updateChatSession now nowIso "" q upd crt st u m).1 u).1
        = some ⟨u, m, nowIso, none⟩)
    ∧ (∀ (now : Nat) (nowIso : String) (dbId : String) (q : Except Unit (Option SessionRow))
        (upd crt : Except Unit Unit) (st : SessState) (u : String) (m : SessionMode),
      (updateChatSession now nowIso dbId q upd crt st u m).2 = true →
      (updateChatSession now nowIso dbId q upd crt st u m).1.sessionCache u = none) := by
  constructor
  · intro now nowIso q upd crt st u m now2 q2 hc
    simp [updateChatSession, getChatSession, setKey, hc]
  · intro now nowIso dbId q upd crt st u m
    by_cases hdb : dbId = ""
    · simp [updateChatSession, hdb]
    · simp only [updateChatSession, if_neg hdb]
      cases hg : (getChatSession now dbId q st u).1 with
      | none =>
        cases crt with
        | ok v => intro hflag; simp [hg, setKey]
        | error e => intro hflag; simp [hg] at hflag
      | some s =>
        cases hp : s.pageId with
        | none =>
          cases crt with
          | ok v => intro hflag; simp [hg, hp, setKey]
          | error e => intro hflag; simp [hg, hp] at hflag
        | some pid =>
          cases upd with
          | ok v => intro hflag; simp [hg, hp, setKey]
          | error e => intro hflag; simp [hg, hp] at hflag

/-- Witness for the amended C8 theorem: the no-remote-store scenario at
concrete inputs, and a concrete remote write that does invalidate the cache. -/
theorem updateChatSession_invalidate_amended_witness :
    (getChatSession 5 "" (Except.ok none)
        (updateChatSession 0 "t1" "" (Except.ok none) (Except.ok ()) (Except.ok ())
          ⟨fun _ => none, fun _ => none⟩ "u1" SessionMode.Human).1 "u1").1
      = some ⟨"u1", SessionMode.Human, "t1", none⟩
    ∧ (updateChatSession 0 "t1" "db" (Except.ok none) (Except.ok ()) (Except.ok ())
        ⟨fun _ => none, fun _ => none⟩ "u1" SessionMode.Human).1.sessionCache "u1"
      = none :=
  ⟨updateChatSession_invalidate_amended.1 0 "t1" (Except.ok none) (Except.ok ())
      (Except.ok ()) ⟨fun _ => none, fun _ => none⟩ "u1" SessionMode.Human 5
      (Except.ok none) rfl,
    updateChatSession_invalidate_amended.2 0 "t1" "db" (Except.ok none) (Except.ok ())
      (Except.ok ()) ⟨fun _ => none, fun _ => none⟩ "u1" SessionMode.Human rfl⟩

/-! ### Embedding of src/unnamed/part_001 (Metrics Ring Buffer) -/

/-- `PerformanceRecord` of src/unnamed/part_001 lines 8-16. -/
structure PerformanceRecord where
  timestamp : Nat
  totalMs : Nat
  notionMs : Nat
  notionCacheHit : Bool
  aiMs : Nat
  aiProvider : String
  aiModel : String
  deriving DecidableEq, Repr

/-- `RING_BUFFER_SIZE` of src/unnamed/part_001 line 18. -/
def RING_BUFFER_SIZE : Nat := 50

/-- `recordPerformance` of src/unnamed/part_001 lines 36-41: when the buffer
already holds `RING_BUFFER_SIZE` records, `shift()` removes the oldest (the
head), then `push()` appends the new record at the end. -/
def recordPerformance (records : List PerformanceRecord) (r : PerformanceRecord) :
    List PerformanceRecord :=
  (if RING_BUFFER_SIZE ≤ records.length then records.drop 1 else records) ++ [r]

/-- A distinct record for each insertion index, used to trace eviction. -/
def mkRec (i : Nat) : PerformanceRecord := ⟨i, i, i, false, i, "Gemini", "m"⟩

/-- The buffer contents after 51 insertions of `mkRec 0 .. mkRec 50` starting
from the empty buffer. -/
def buf51 : List PerformanceRecord :=
  (List.range 51).foldl (fun b i => recordPerformance b (mkRec i)) []

/-- One insertion keeps the buffer within capacity. -/
theorem recordPerformance_length_le (b : List PerformanceRecord) (r : PerformanceRecord)
    (h : b.length ≤ RING_BUFFER_SIZE) :
    (recordPerformance b r).length ≤ RING_BUFFER_SIZE := by
  unfold recordPerformance RING_BUFFER_SIZE at *
  split <;> simp <;> omega

/-- C9: starting from the empty buffer, no sequence of `recordPerformance`
calls ever leaves more than 50 records, and eviction on overflow is FIFO:
after 51 insertions of distinct records the buffer holds exactly insertions
1 through 50, so the first-inserted record is absent and the 51st present. -/
theorem ringBuffer_bounded_fifo :
    (∀ rs : List PerformanceRecord,
      (rs.foldl recordPerformance []).length ≤ RING_BUFFER_SIZE)
    ∧ buf51 = (List.range' 1 50).map mkRec
    ∧ mkRec 0 ∉ buf51
    ∧ mkRec 50 ∈ buf51 := by
  refine ⟨?_, by decide, by decide, by decide⟩
  intro rs
  have key : ∀ (l : List PerformanceRecord) (b : List PerformanceRecord),
      b.length ≤ RING_BUFFER_SIZE → (l.foldl recordPerformance b).length ≤ RING_BUFFER_SIZE := by
    intro l
    induction l with
    | nil => intro b hb; exact hb
    | cons r t ih => intro b hb; exact ih _ (recordPerformance_length_le b r hb)
  exact key rs [] (by simp [RING_BUFFER_SIZE])

/-! ### Embedding of `getSystemConfig` (src/src/lib/notion.ts lines 149-220) -/

/-- `SystemConfig` of src/src/lib/notion.ts lines 151-158. -/
structure SystemConfig where
  AI_ENABLED : Bool
  MODEL_NAME : String
  SYSTEM_PROMPT : Option String
  HANDOVER_KEYWORDS : Option (List String)
  AUTO_SWITCH_MINUTES : Option Nat
  ADMIN_LINE_ID : Option String
  deriving DecidableEq, Repr

/-- `SYSTEM_CONFIG_TTL_MS` of src/src/lib/notion.ts line 46 (5 minutes). -/
def SYSTEM_CONFIG_TTL_MS : Nat := 5 * 60 * 1000

/-- The query-and-parse branch of `getSystemConfig` (src/src/lib/notion.ts
lines 176-219): on success the parsed config is cached for the full TTL; on a
thrown query the `null` result is cached with a 30-second expiry. -/
def getSystemConfigQuery (now : Nat) (query : Except Unit SystemConfig) :
    Option SystemConfig × Option (MemCacheEntry (Option SystemConfig)) × Nat :=
  match query with
  | Except.ok c => (some c, some ⟨some c, now + SYSTEM_CONFIG_TTL_MS⟩, 1)
  | Except.error _ => (none, some ⟨none, now + 30000⟩, 1)

/-- `getSystemConfig` of src/src/lib/notion.ts lines 163-220, with the
database query (including row parsing) supplied as an oracle and the
module-level `systemConfigCache` slot passed and returned explicitly.
The final `Nat` counts the store queries issued by the call (0 or 1). -/
def getSystemConfig (now : Nat) (configDbId : String) (query : Except Unit SystemConfig)
    (cache : Option (MemCacheEntry (Option SystemConfig))) :
    Option SystemConfig × Option (MemCacheEntry (Option SystemConfig)) × Nat :=
  if configDbId = "" then (none, cache, 0)
  else
    match cache with
    | some e =>
      if now < e.expiresAt then (e.data, cache, 0)
      else getSystemConfigQuery now query
    | none => getSystemConfigQuery now query

/-- C10: when the store query fails, `getSystemConfig` caches the null result
with a 30-second expiry; every call within the next 30 seconds returns null
without issuing a store query, and a call at or past that window issues a
store query again. -/
theorem getSystemConfig_error_window (configDbId : String) (hdb : configDbId ≠ "")
    (now now2 : Nat) (q2 : Except Unit SystemConfig) :
    getSystemConfig now configDbId (Except.error ()) none
      = (none, some ⟨none, now + 30000⟩, 1)
    ∧ (now2 < now + 30000 →
        getSystemConfig now2 configDbId q2 (some ⟨none, now + 30000⟩)
          = (none, some ⟨none, now + 30000⟩, 0))
    ∧ (now + 30000 ≤ now2 →
        (getSystemConfig now2 configDbId q2 (some ⟨none, now + 30000⟩)).2.2 = 1) := by
  refine ⟨?_, ?_, ?_⟩
  · simp [getSystemConfig, getSystemConfigQuery, hdb]
  · intro hlt
    simp [getSystemConfig, hdb, hlt]
  · intro hge
    have hnot : ¬ now2 < now + 30000 := Nat.not_lt.mpr hge
    cases q2 <;> simp [getSystemConfig, getSystemConfigQuery, hdb, hnot]

/-- Witness for C10: a failing query at time 0, a hit at time 10 and a fresh
query at time 30000. -/
theorem getSystemConfig_error_window_witness :
    getSystemConfig 0 "db" (Except.error ()) none
      = (none, some ⟨none, 0 + 30000⟩, 1)
    ∧ (10 < 0 + 30000 →
        getSystemConfig 10 "db" (Except.error ()) (some ⟨none, 0 + 30000⟩)
          = (none, some ⟨none, 0 + 30000⟩, 0))
    ∧ (0 + 30000 ≤ 10 →
        (getSystemConfig 10 "db" (Except.error ()) (some ⟨none, 0 + 30000⟩)).2.2 = 1) :=
  getSystemConfig_error_window "db" (by decide) 0 10 (Except.error ())

end Assistant
